import Mathlib

/-!
Verification of the App Pass SDK (`src/index.ts`) against its specification.

The source is a small client-side SDK with three functions:
`checkStatus` (the permission-gated, retrying status prober),
`checkAppPass` (permission check, then probe) and
`activateAppPass` (interactive permission request, probe, open activation tab).

The embedding models the external capabilities (host permission queries,
`fetch`, body parsing, tab creation) as an explicit environment `Env`;
capabilities that may throw are modelled with `Except Unit`.  Observable
effects (number of fetch attempts, number of 1-second backoff waits, number
of body-parse calls, tab URLs opened) are recorded in a `Trace`.
-/

namespace AppPassSDK

/-- The fixed endpoint base, `const urlBase = 'http://localhost:8080'`. -/
def urlBase : String := "http://localhost:8080"

/-- The result entity returned by the SDK (interface `AppPassResponse`).
In the source `status` is a plain string; the optional fields are
`undefined` when absent, modelled as `none`. -/
structure AppPassResponse where
  status : String
  message : Option String := none
  email : Option String := none
  appPassToken : Option String := none
deriving Repr, DecidableEq

/-- A parsed JSON response body as consumed by `checkStatus`
(`data.status`, `data.message`, `data.email`, `data.appPassToken`).
A missing / non-truthy-relevant field is `none`; a present string field is
`some s` (the empty string `some ""` is present but falsy in JavaScript). -/
structure Body where
  status : Option String := none
  message : Option String := none
  email : Option String := none
  appPassToken : Option String := none
deriving Repr, DecidableEq

deriving instance DecidableEq for Except

/-- One fetch attempt's outcome: either the transport throws, or a response
arrives with an HTTP status code and — if the body is read — a parse
outcome (`Except.error` when `response.json()` throws). -/
inductive FetchOutcome where
  | transportError : FetchOutcome
  | response (code : Nat) (body : Except Unit Body) : FetchOutcome
deriving Repr, DecidableEq

/-- The external world an invocation runs against:
`permContains` is the result of `chrome.permissions.contains`,
`permRequest` of `chrome.permissions.request`,
`fetches i` the outcome of the fetch issued on loop attempt `i` (1-based),
`tabCreate` the result of `chrome.tabs.create`, and
`extensionId` the ambient `chrome.runtime.id`.  Each capability call may
throw, modelled by `Except.error ()`. -/
structure Env where
  permContains : Except Unit Bool
  permRequest : Except Unit Bool
  fetches : Nat → FetchOutcome
  tabCreate : Except Unit Unit
  extensionId : String

/-- Observable side effects of one invocation: how many fetches were
issued, how many 1-second backoff waits happened, how many times a response
body parse (`response.json()`) was started, and which tab URLs were opened. -/
structure Trace where
  fetches : Nat := 0
  waits : Nat := 0
  parses : Nat := 0
  tabUrls : List String := []
deriving Repr, DecidableEq

/-- The empty trace at the start of an invocation. -/
def Trace.empty : Trace := {}

/-- JavaScript `x || d` for an optional string `x`: the default is taken
when the field is absent (`undefined`) or falsy (the empty string). -/
def orDefault (s : Option String) (d : String) : String :=
  match s with
  | none => d
  | some v => if v = "" then d else v

/-- The `response.ok` test: the HTTP status code is in the 2xx success range. -/
def successRange (code : Nat) : Bool := 200 ≤ code && code < 300

/-- The short-circuit result `{ status: 'no_perm', message: 'Permission denied' }`. -/
def noPermResponse : AppPassResponse :=
  { status := "no_perm", message := some "Permission denied" }

/-- The exhausted-retries result
`{ status: 'err', message: 'Failed to connect to server' }`. -/
def connFailResponse : AppPassResponse :=
  { status := "err", message := some "Failed to connect to server" }

/-- Mapping of a parsed body to the result (lines 62–67 of the source):
`status: data.status || 'unknown_error'`, the other fields verbatim. -/
def bodyToResponse (data : Body) : AppPassResponse :=
  { status := orDefault data.status "unknown_error"
    message := data.message
    email := data.email
    appPassToken := data.appPassToken }

/-- Trace update after a failed attempt: `if (attempt < maxAttempts)`
(equivalently, some attempts remain) wait 1 second before retrying. -/
def afterFailure (tr : Trace) (remaining : Nat) : Trace :=
  if 0 < remaining then { tr with waits := tr.waits + 1 } else tr

/-- The retry loop of `checkStatus` (lines 47–86): `fuel` is the number of
attempts still allowed including the current one (initially
`maxAttempts = 3`), `attempt` the 1-based attempt index.  Each iteration
issues one fetch; a thrown transport call or a thrown body parse is caught
and retried; a non-2xx response is logged and retried; a 2xx response with
a parseable body is terminal.  When the fuel runs out the loop falls
through to the final failure result. -/
def runAttempts (env : Env) : Nat → Nat → Trace → AppPassResponse × Trace
  | 0, _, tr => (connFailResponse, tr)
  | remaining + 1, attempt, tr =>
    let tr1 : Trace := { tr with fetches := tr.fetches + 1 }
    match env.fetches attempt with
    | FetchOutcome.transportError =>
        runAttempts env remaining (attempt + 1) (afterFailure tr1 remaining)
    | FetchOutcome.response code bodyRes =>
        if successRange code then
          let tr2 : Trace := { tr1 with parses := tr1.parses + 1 }
          match bodyRes with
          | Except.ok data => (bodyToResponse data, tr2)
          | Except.error _ =>
              runAttempts env remaining (attempt + 1) (afterFailure tr2 remaining)
        else
          runAttempts env remaining (attempt + 1) (afterFailure tr1 remaining)

/-- Function `checkStatus` (lines 35–87): query the permission; on a thrown query the
exception propagates (the call is not inside any try/catch); on a missing
grant return the `no_perm` result without fetching; otherwise run the
3-attempt retry loop. -/
def checkStatus (env : Env) : Except Unit AppPassResponse × Trace :=
  match env.permContains with
  | Except.error e => (Except.error e, Trace.empty)
  | Except.ok hasPermission =>
    if hasPermission then
      let p := runAttempts env 3 1 Trace.empty
      (Except.ok p.1, p.2)
    else
      (Except.ok noPermResponse, Trace.empty)

/-- Function `checkAppPass` (lines 94–103): query the permission itself, short-circuit
to `no_perm` when absent, otherwise delegate to `checkStatus` and return its
result unchanged. -/
def checkAppPass (env : Env) : Except Unit AppPassResponse × Trace :=
  match env.permContains with
  | Except.error e => (Except.error e, Trace.empty)
  | Except.ok hasPermission =>
    if hasPermission then checkStatus env
    else (Except.ok noPermResponse, Trace.empty)

/-- Hexadecimal digit used by percent-encoding (uppercase, as produced by
`encodeURIComponent`). -/
def hexDigit (n : Nat) : Char :=
  if n < 10 then Char.ofNat (48 + n) else Char.ofNat (55 + n)

/-- UTF-8 encoding of a Unicode code point, as percent-encoding operates on
the UTF-8 bytes of the string. -/
def utf8Bytes (n : Nat) : List Nat :=
  if n < 128 then [n]
  else if n < 2048 then [192 + n / 64, 128 + n % 64]
  else if n < 65536 then [224 + n / 4096, 128 + n / 64 % 64, 128 + n % 64]
  else [240 + n / 262144, 128 + n / 4096 % 64, 128 + n / 64 % 64, 128 + n % 64]

/-- The `%XY` escape of one byte. -/
def percentByte (b : Nat) : String :=
  String.mk [Char.ofNat 37, hexDigit (b / 16), hexDigit (b % 16)]

/-- The characters `encodeURIComponent` leaves unescaped:
`A–Z a–z 0–9 - _ . ! ~ * ' ( )`. -/
def isUnreservedURIChar (c : Char) : Bool :=
  c.isAlphanum || c.toNat = 45 || c.toNat = 95 || c.toNat = 46 || c.toNat = 33 ||
    c.toNat = 126 || c.toNat = 42 || c.toNat = 39 || c.toNat = 40 || c.toNat = 41

/-- Encoding of a single character under `encodeURIComponent`. -/
def encodeURIChar (c : Char) : String :=
  if isUnreservedURIChar c then String.mk [c]
  else String.join ((utf8Bytes c.toNat).map percentByte)

/-- JavaScript `encodeURIComponent`. -/
def encodeURIComponent (s : String) : String :=
  String.join (s.toList.map encodeURIChar)

/-- The activation URL opened by `activateAppPass`:
`` `${urlBase}/apppass/add/${encodeURIComponent(chrome.runtime.id)}` ``. -/
def activationUrl (env : Env) : String :=
  urlBase ++ "/apppass/add/" ++ encodeURIComponent env.extensionId

/-- Function `activateAppPass` (lines 110–122): interactive permission request (a
thrown request propagates); if granted, probe via `checkStatus`, then open
the activation tab (the call is issued, and a thrown `tabs.create`
propagates since it is awaited outside any try/catch), and return the
probed result; if declined, return `no_perm`. -/
def activateAppPass (env : Env) : Except Unit AppPassResponse × Trace :=
  match env.permRequest with
  | Except.error e => (Except.error e, Trace.empty)
  | Except.ok granted =>
    if granted then
      let p := checkStatus env
      match p.1 with
      | Except.error e => (Except.error e, p.2)
      | Except.ok res =>
        let tr2 : Trace := { p.2 with tabUrls := p.2.tabUrls ++ [activationUrl env] }
        match env.tabCreate with
        | Except.error e => (Except.error e, tr2)
        | Except.ok _ => (Except.ok res, tr2)
    else
      (Except.ok noPermResponse, Trace.empty)

/-- The six documented status values. -/
def enumStatuses : List String :=
  ["ok", "no_perm", "no_apppass", "ext_inactive", "err", "unknown_error"]

/-- Whether a status string is one of the six documented values. -/
def statusInEnum (s : String) : Bool := enumStatuses.contains s

/-! ### Step lemmas for the retry loop -/

theorem afterFailure_tabUrls (tr : Trace) (r : Nat) :
    (afterFailure tr r).tabUrls = tr.tabUrls := by
  unfold afterFailure; split <;> rfl

theorem runAttempts_transport_step (env : Env) (fuel r a : Nat) (tr : Trace)
    (hfuel : fuel = r + 1) (h : env.fetches a = FetchOutcome.transportError) :
    runAttempts env fuel a tr =
      runAttempts env r (a + 1) (afterFailure { tr with fetches := tr.fetches + 1 } r) := by
  subst hfuel; simp [runAttempts, h]

theorem runAttempts_non2xx_step (env : Env) (fuel r a code : Nat)
    (bodyRes : Except Unit Body) (tr : Trace)
    (hfuel : fuel = r + 1) (h : env.fetches a = FetchOutcome.response code bodyRes)
    (hc : successRange code = false) :
    runAttempts env fuel a tr =
      runAttempts env r (a + 1) (afterFailure { tr with fetches := tr.fetches + 1 } r) := by
  subst hfuel; simp [runAttempts, h, hc]

theorem runAttempts_parsefail_step (env : Env) (fuel r a code : Nat) (u : Unit) (tr : Trace)
    (hfuel : fuel = r + 1) (h : env.fetches a = FetchOutcome.response code (Except.error u))
    (hc : successRange code = true) :
    runAttempts env fuel a tr =
      runAttempts env r (a + 1)
        (afterFailure { tr with fetches := tr.fetches + 1, parses := tr.parses + 1 } r) := by
  subst hfuel; simp [runAttempts, h, hc]

theorem runAttempts_success_step (env : Env) (fuel r a code : Nat) (data : Body) (tr : Trace)
    (hfuel : fuel = r + 1) (h : env.fetches a = FetchOutcome.response code (Except.ok data))
    (hc : successRange code = true) :
    runAttempts env fuel a tr =
      (bodyToResponse data, { tr with fetches := tr.fetches + 1, parses := tr.parses + 1 }) := by
  subst hfuel; simp [runAttempts, h, hc]

/-- A retryable attempt that never reaches the body parse: the transport
threw, or a response outside the 2xx range arrived. -/
theorem runAttempts_retry_step (env : Env) (fuel r a : Nat) (tr : Trace)
    (hfuel : fuel = r + 1)
    (h : env.fetches a = FetchOutcome.transportError ∨
      ∃ c b, env.fetches a = FetchOutcome.response c b ∧ successRange c = false) :
    runAttempts env fuel a tr =
      runAttempts env r (a + 1) (afterFailure { tr with fetches := tr.fetches + 1 } r) := by
  rcases h with h | ⟨c, b, h, hc⟩
  · exact runAttempts_transport_step env fuel r a tr hfuel h
  · exact runAttempts_non2xx_step env fuel r a c b tr hfuel h hc

/-- The retry loop never opens a tab. -/
theorem runAttempts_tabUrls (env : Env) :
    ∀ fuel a tr, (runAttempts env fuel a tr).2.tabUrls = tr.tabUrls := by
  intro fuel
  induction fuel with
  | zero => intro a tr; rfl
  | succ r ih =>
    intro a tr
    cases hf : env.fetches a with
    | transportError =>
      rw [runAttempts_transport_step env (r + 1) r a tr rfl hf, ih, afterFailure_tabUrls]
    | response code bodyRes =>
      cases hc : successRange code with
      | false =>
        rw [runAttempts_non2xx_step env (r + 1) r a code bodyRes tr rfl hf hc, ih,
          afterFailure_tabUrls]
      | true =>
        cases bodyRes with
        | error u =>
          rw [runAttempts_parsefail_step env (r + 1) r a code u tr rfl hf hc, ih,
            afterFailure_tabUrls]
        | ok data =>
          rw [runAttempts_success_step env (r + 1) r a code data tr rfl hf hc]

/-- Every result of the retry loop is either the exhausted-retries failure
or the verbatim mapping of some attempt's parsed 2xx body. -/
theorem runAttempts_result_cases (env : Env) :
    ∀ fuel a tr, (runAttempts env fuel a tr).1 = connFailResponse ∨
      ∃ i c b, env.fetches i = FetchOutcome.response c (Except.ok b) ∧
        successRange c = true ∧ (runAttempts env fuel a tr).1 = bodyToResponse b := by
  intro fuel
  induction fuel with
  | zero => intro a tr; left; rfl
  | succ r ih =>
    intro a tr
    cases hf : env.fetches a with
    | transportError =>
      rw [runAttempts_transport_step env (r + 1) r a tr rfl hf]; exact ih (a + 1) _
    | response code bodyRes =>
      cases hc : successRange code with
      | false =>
        rw [runAttempts_non2xx_step env (r + 1) r a code bodyRes tr rfl hf hc]
        exact ih (a + 1) _
      | true =>
        cases bodyRes with
        | error u =>
          rw [runAttempts_parsefail_step env (r + 1) r a code u tr rfl hf hc]
          exact ih (a + 1) _
        | ok data =>
          right
          exact ⟨a, code, data, hf, hc, by
            rw [runAttempts_success_step env (r + 1) r a code data tr rfl hf hc]⟩

/-- When the permission query answers (does not throw), `checkStatus`
returns a result rather than an exception, and that result is the loop's
result when the grant is present, else `no_perm`. -/
theorem checkStatus_fst (env : Env) (b : Bool) (hc : env.permContains = Except.ok b) :
    (checkStatus env).1 =
      Except.ok (if b then (runAttempts env 3 1 Trace.empty).1 else noPermResponse) := by
  unfold checkStatus; rw [hc]; cases b <;> simp

/-- Function `checkStatus` itself opens no tab. -/
theorem checkStatus_tabUrls (env : Env) (b : Bool)
    (hc : env.permContains = Except.ok b) :
    (checkStatus env).2.tabUrls = [] := by
  unfold checkStatus; rw [hc]
  cases b <;> simp [runAttempts_tabUrls, Trace.empty]

/-- With the grant present, `checkStatus` is exactly the retry loop. -/
theorem checkStatus_granted (env : Env) (hp : env.permContains = Except.ok true) :
    checkStatus env =
      (Except.ok (runAttempts env 3 1 Trace.empty).1, (runAttempts env 3 1 Trace.empty).2) := by
  simp [checkStatus, hp]

/-! ### Concrete environments used as witnesses and counterexamples -/

/-- Permission absent / declined; transport always throws. -/
def envNoPerm : Env :=
  { permContains := Except.ok false, permRequest := Except.ok false
    fetches := fun _ => FetchOutcome.transportError
    tabCreate := Except.ok (), extensionId := "abc" }

/-- Permission granted; transport throws on every attempt. -/
def envAllThrow : Env :=
  { permContains := Except.ok true, permRequest := Except.ok true
    fetches := fun _ => FetchOutcome.transportError
    tabCreate := Except.ok (), extensionId := "abc" }

/-- Permission granted; the server answers 404 on every attempt. -/
def envAll404 : Env :=
  { permContains := Except.ok true, permRequest := Except.ok true
    fetches := fun _ => FetchOutcome.response 404 (Except.ok {})
    tabCreate := Except.ok (), extensionId := "abc" }

/-- Permission granted; every attempt yields a 200 whose body parse throws. -/
def envAllParseFail : Env :=
  { permContains := Except.ok true, permRequest := Except.ok true
    fetches := fun _ => FetchOutcome.response 200 (Except.error ())
    tabCreate := Except.ok (), extensionId := "abc" }

/-- Permission granted; immediate 200 with the documented success body. -/
def envOkFirst : Env :=
  { permContains := Except.ok true, permRequest := Except.ok true
    fetches := fun _ => FetchOutcome.response 200
      (Except.ok { status := some "ok", email := some "a@b.com", appPassToken := some "T" })
    tabCreate := Except.ok (), extensionId := "a b/c" }

/-! ### Claim theorems -/

/-- Claim C1: whenever the host permission-containment query returns
`false`, `checkAppPass` issues no fetch and returns exactly
`{status: 'no_perm', message: 'Permission denied'}`. -/
theorem checkAppPass_noPermission (env : Env)
    (hp : env.permContains = Except.ok false) :
    checkAppPass env =
      (Except.ok { status := "no_perm", message := some "Permission denied" },
       { fetches := 0, waits := 0, parses := 0, tabUrls := [] }) := by
  simp [checkAppPass, hp, noPermResponse, Trace.empty]

/-- Witness for C1 at a concrete environment. -/
theorem checkAppPass_noPermission_witness :
    checkAppPass envNoPerm =
      (Except.ok { status := "no_perm", message := some "Permission denied" },
       { fetches := 0, waits := 0, parses := 0, tabUrls := [] }) :=
  checkAppPass_noPermission envNoPerm rfl

/-- Claim C4: permission granted and every attempt fails (transport throw
or non-2xx status): the prober issues exactly 3 fetches with exactly 2
backoff waits and returns `{status: 'err', message: 'Failed to connect to
server'}`. -/
theorem probe_all_failures_exhausts (env : Env)
    (hp : env.permContains = Except.ok true)
    (hf : ∀ i, 1 ≤ i → i ≤ 3 →
      env.fetches i = FetchOutcome.transportError ∨
        ∃ c b, env.fetches i = FetchOutcome.response c b ∧ successRange c = false) :
    checkStatus env =
      (Except.ok { status := "err", message := some "Failed to connect to server" },
       { fetches := 3, waits := 2, parses := 0, tabUrls := [] }) := by
  rw [checkStatus_granted env hp,
    runAttempts_retry_step env 3 2 1 Trace.empty rfl (hf 1 (by norm_num) (by norm_num)),
    runAttempts_retry_step env 2 1 2 _ rfl (hf 2 (by norm_num) (by norm_num)),
    runAttempts_retry_step env 1 0 3 _ rfl (hf 3 (by norm_num) (by norm_num))]
  rfl

/-- Witness for C4 at a concrete environment. -/
theorem probe_all_failures_exhausts_witness :
    checkStatus envAllThrow =
      (Except.ok { status := "err", message := some "Failed to connect to server" },
       { fetches := 3, waits := 2, parses := 0, tabUrls := [] }) :=
  probe_all_failures_exhausts envAllThrow rfl (fun _ _ _ => Or.inl rfl)

/-- Claim C7: when the interactive permission request is declined,
`activateAppPass` returns exactly `no_perm`, opens no tab and fetches
nothing. -/
theorem activate_declined (env : Env)
    (hr : env.permRequest = Except.ok false) :
    activateAppPass env =
      (Except.ok { status := "no_perm", message := some "Permission denied" },
       { fetches := 0, waits := 0, parses := 0, tabUrls := [] }) := by
  simp [activateAppPass, hr, noPermResponse, Trace.empty]

/-- Witness for C7 at a concrete environment. -/
theorem activate_declined_witness :
    activateAppPass envNoPerm =
      (Except.ok { status := "no_perm", message := some "Permission denied" },
       { fetches := 0, waits := 0, parses := 0, tabUrls := [] }) :=
  activate_declined envNoPerm rfl

/-- Claim C9: a response is terminal exactly when 2xx; when every attempt
yields a non-2xx response (e.g. 4xx) the body is never parsed
(`parses = 0`), the prober retries until the 3-attempt bound and returns
the connectivity failure — variant (ii) of the spec's open question. -/
theorem probe_non2xx_all_retried (env : Env)
    (hp : env.permContains = Except.ok true)
    (hf : ∀ i, 1 ≤ i → i ≤ 3 →
      ∃ c b, env.fetches i = FetchOutcome.response c b ∧ successRange c = false) :
    checkStatus env =
      (Except.ok { status := "err", message := some "Failed to connect to server" },
       { fetches := 3, waits := 2, parses := 0, tabUrls := [] }) := by
  rw [checkStatus_granted env hp,
    runAttempts_retry_step env 3 2 1 Trace.empty rfl (Or.inr (hf 1 (by norm_num) (by norm_num))),
    runAttempts_retry_step env 2 1 2 _ rfl (Or.inr (hf 2 (by norm_num) (by norm_num))),
    runAttempts_retry_step env 1 0 3 _ rfl (Or.inr (hf 3 (by norm_num) (by norm_num)))]
  rfl

/-- Witness for C9 at a concrete environment (404 on every attempt). -/
theorem probe_non2xx_all_retried_witness :
    checkStatus envAll404 =
      (Except.ok { status := "err", message := some "Failed to connect to server" },
       { fetches := 3, waits := 2, parses := 0, tabUrls := [] }) :=
  probe_non2xx_all_retried envAll404 rfl (fun _ _ _ => ⟨404, Except.ok {}, rfl, rfl⟩)

/-- Claim C10: a 2xx response whose body fails to parse is a retryable
failed attempt (the parse is started each time, `parses = 3`, and the loop
continues); when this happens on every attempt the result is
`{status: 'err', message: 'Failed to connect to server'}`. -/
theorem probe_parse_failure_retried (env : Env)
    (hp : env.permContains = Except.ok true)
    (hf : ∀ i, 1 ≤ i → i ≤ 3 →
      ∃ c, env.fetches i = FetchOutcome.response c (Except.error ()) ∧ successRange c = true) :
    checkStatus env =
      (Except.ok { status := "err", message := some "Failed to connect to server" },
       { fetches := 3, waits := 2, parses := 3, tabUrls := [] }) := by
  obtain ⟨c1, h1, hc1⟩ := hf 1 (by norm_num) (by norm_num)
  obtain ⟨c2, h2, hc2⟩ := hf 2 (by norm_num) (by norm_num)
  obtain ⟨c3, h3, hc3⟩ := hf 3 (by norm_num) (by norm_num)
  rw [checkStatus_granted env hp,
    runAttempts_parsefail_step env 3 2 1 c1 () Trace.empty rfl h1 hc1,
    runAttempts_parsefail_step env 2 1 2 c2 () _ rfl h2 hc2,
    runAttempts_parsefail_step env 1 0 3 c3 () _ rfl h3 hc3]
  rfl

/-- Witness for C10 at a concrete environment. -/
theorem probe_parse_failure_retried_witness :
    checkStatus envAllParseFail =
      (Except.ok { status := "err", message := some "Failed to connect to server" },
       { fetches := 3, waits := 2, parses := 3, tabUrls := [] }) :=
  probe_parse_failure_retried envAllParseFail rfl (fun _ _ _ => ⟨200, rfl, rfl⟩)

/-- Claim C5 (amended): permission granted and a 2xx response with a
parseable body on attempt 1: the prober returns after exactly 1 fetch with
no wait; `message`, `email`, `appPassToken` pass through verbatim and
`status` is the body's status unless that field is absent or empty
(falsy), in which case it defaults to `'unknown_error'`. -/
theorem probe_first_attempt_terminal (env : Env) (code : Nat) (data : Body)
    (hp : env.permContains = Except.ok true)
    (h1 : env.fetches 1 = FetchOutcome.response code (Except.ok data))
    (hc : successRange code = true) :
    checkStatus env =
      (Except.ok { status := orDefault data.status "unknown_error",
                   message := data.message, email := data.email,
                   appPassToken := data.appPassToken },
       { fetches := 1, waits := 0, parses := 1, tabUrls := [] }) := by
  rw [checkStatus_granted env hp,
    runAttempts_success_step env 3 2 1 code data Trace.empty rfl h1 hc]
  rfl

/-- Witness for C5 (amended) at a concrete environment. -/
theorem probe_first_attempt_terminal_witness :
    checkStatus envOkFirst =
      (Except.ok { status := "ok", message := none, email := some "a@b.com",
                   appPassToken := some "T" },
       { fetches := 1, waits := 0, parses := 1, tabUrls := [] }) :=
  probe_first_attempt_terminal envOkFirst 200
    { status := some "ok", email := some "a@b.com", appPassToken := some "T" } rfl rfl rfl

/-! ### Shape lemmas for the public operations -/

/-- Shape of `activateAppPass` when the request is granted, the permission
query answers, and tab creation succeeds. -/
theorem activateAppPass_granted_tabok (env : Env) (b : Bool)
    (hr : env.permRequest = Except.ok true) (hc : env.permContains = Except.ok b)
    (ht : env.tabCreate = Except.ok ()) :
    activateAppPass env =
      (Except.ok (if b then (runAttempts env 3 1 Trace.empty).1 else noPermResponse),
       { (checkStatus env).2 with
         tabUrls := (checkStatus env).2.tabUrls ++ [activationUrl env] }) := by
  simp only [activateAppPass, hr, if_true]
  rw [checkStatus_fst env b hc]
  simp [ht]

/-- Shape of `activateAppPass` when the request is granted, the permission
query answers, and tab creation throws: the exception propagates. -/
theorem activateAppPass_granted_taberr (env : Env) (b : Bool)
    (hr : env.permRequest = Except.ok true) (hc : env.permContains = Except.ok b)
    (ht : env.tabCreate = Except.error ()) :
    (activateAppPass env).1 = Except.error () := by
  simp only [activateAppPass, hr, if_true]
  rw [checkStatus_fst env b hc]
  simp [ht]

/-- Shape of `activateAppPass` when the request is granted but the inner
permission query throws: the exception propagates. -/
theorem activateAppPass_granted_permthrow (env : Env)
    (hr : env.permRequest = Except.ok true) (hc : env.permContains = Except.error ()) :
    (activateAppPass env).1 = Except.error () := by
  have hcs : checkStatus env = (Except.error (), Trace.empty) := by
    simp [checkStatus, hc]
  simp [activateAppPass, hr, hcs]

/-- Every `Except.ok` result of `checkAppPass` is the `no_perm`
short-circuit or the retry loop's result. -/
theorem checkAppPass_ok_cases (env : Env) (r : AppPassResponse) (tr : Trace)
    (h : checkAppPass env = (Except.ok r, tr)) :
    r = noPermResponse ∨ r = (runAttempts env 3 1 Trace.empty).1 := by
  cases hcp : env.permContains with
  | error e => simp [checkAppPass, hcp] at h
  | ok b =>
    cases b with
    | false =>
      simp [checkAppPass, hcp] at h
      exact Or.inl h.1.symm
    | true =>
      rw [checkAppPass] at h
      rw [hcp] at h
      simp only [if_true] at h
      rw [checkStatus_granted env hcp] at h
      simp at h
      exact Or.inr h.1.symm

/-- Every `Except.ok` result of `activateAppPass` is the `no_perm`
short-circuit or the retry loop's result. -/
theorem activateAppPass_ok_cases (env : Env) (r : AppPassResponse) (tr : Trace)
    (h : activateAppPass env = (Except.ok r, tr)) :
    r = noPermResponse ∨ r = (runAttempts env 3 1 Trace.empty).1 := by
  cases hpr : env.permRequest with
  | error e => simp [activateAppPass, hpr] at h
  | ok g =>
    cases g with
    | false =>
      simp [activateAppPass, hpr] at h
      exact Or.inl h.1.symm
    | true =>
      cases hcp : env.permContains with
      | error e =>
        cases e
        have := activateAppPass_granted_permthrow env hpr hcp
        rw [h] at this
        simp at this
      | ok b =>
        cases htc : env.tabCreate with
        | error u =>
          cases u
          have := activateAppPass_granted_taberr env b hpr hcp htc
          rw [h] at this
          simp at this
        | ok u =>
          cases u
          rw [activateAppPass_granted_tabok env b hpr hcp htc] at h
          simp at h
          cases b with
          | false => simp at h; exact Or.inl h.1.symm
          | true => simp at h; exact Or.inr h.1.symm

/-- Every result of a public operation is the `no_perm` short-circuit, the
exhausted-retries failure, or the verbatim mapping of a parsed 2xx body. -/
theorem response_shape (env : Env) (r : AppPassResponse)
    (h : r = noPermResponse ∨ r = (runAttempts env 3 1 Trace.empty).1) :
    r = noPermResponse ∨ r = connFailResponse ∨
      ∃ i c b, env.fetches i = FetchOutcome.response c (Except.ok b) ∧
        successRange c = true ∧ r = bodyToResponse b := by
  rcases h with h | h
  · exact Or.inl h
  · rcases runAttempts_result_cases env 3 1 Trace.empty with h2 | ⟨i, c, b, hf, hc, h2⟩
    · exact Or.inr (Or.inl (h.trans h2))
    · exact Or.inr (Or.inr ⟨i, c, b, hf, hc, h.trans h2⟩)

/-! ### Claim theorems, continued -/

/-- Claim C8: with the request granted (and the capabilities answering),
`activateAppPass` returns the prober's result unchanged and opens exactly
one tab, at the activation URL with the percent-encoded extension id. -/
theorem activate_granted_opens_tab (env : Env) (b : Bool)
    (hr : env.permRequest = Except.ok true) (hc : env.permContains = Except.ok b)
    (ht : env.tabCreate = Except.ok ()) :
    (activateAppPass env).1 = (checkStatus env).1 ∧
    (activateAppPass env).2.tabUrls =
      [urlBase ++ "/apppass/add/" ++ encodeURIComponent env.extensionId] := by
  rw [activateAppPass_granted_tabok env b hr hc ht]
  constructor
  · rw [checkStatus_fst env b hc]
  · simp [checkStatus_tabUrls env b hc, activationUrl]

/-- Witness for C8 at a concrete environment. -/
theorem activate_granted_opens_tab_witness :
    (activateAppPass envOkFirst).1 = (checkStatus envOkFirst).1 ∧
    (activateAppPass envOkFirst).2.tabUrls =
      ["http://localhost:8080/apppass/add/a%20b%2Fc"] :=
  activate_granted_opens_tab envOkFirst true rfl rfl rfl

/-- Permission granted; the server answers 200 with a body whose status
string is outside the documented enumeration. -/
def envBanana : Env :=
  { permContains := Except.ok true, permRequest := Except.ok true
    fetches := fun _ => FetchOutcome.response 200 (Except.ok { status := some "banana" })
    tabCreate := Except.ok (), extensionId := "abc" }

/-- Permission granted; the server answers 200 with a non-`ok` status but
populated `email` and `appPassToken` fields. -/
def envLeak : Env :=
  { permContains := Except.ok true, permRequest := Except.ok true
    fetches := fun _ => FetchOutcome.response 200
      (Except.ok { status := some "no_apppass", email := some "x@y.z"
                   appPassToken := some "T" })
    tabCreate := Except.ok (), extensionId := "abc" }

/-- Permission granted; the server answers 200 with a present-but-empty
status field. -/
def envEmptyStatus : Env :=
  { permContains := Except.ok true, permRequest := Except.ok true
    fetches := fun _ => FetchOutcome.response 200 (Except.ok { status := some "" })
    tabCreate := Except.ok (), extensionId := "abc" }

/-- The host permission-containment query itself throws. -/
def envPermThrow : Env :=
  { permContains := Except.error (), permRequest := Except.ok true
    fetches := fun _ => FetchOutcome.transportError
    tabCreate := Except.ok (), extensionId := "abc" }

/-- Permission granted, probe succeeds, but `chrome.tabs.create` throws. -/
def envTabThrow : Env :=
  { permContains := Except.ok true, permRequest := Except.ok true
    fetches := fun _ => FetchOutcome.response 200 (Except.ok { status := some "ok" })
    tabCreate := Except.error (), extensionId := "abc" }

/-- Counterexample to C2 as stated: a 200 body `{status: "banana"}` makes
`checkAppPass` return the out-of-enumeration status `"banana"` verbatim. -/
theorem status_enum_counterexample :
    (checkAppPass envBanana).1 = Except.ok { status := "banana" } ∧
    statusInEnum "banana" = false :=
  ⟨rfl, rfl⟩

/-- Claim C2 (amended): the returned `status` is always a defined string;
whenever every parsed 2xx body's status field is absent, empty, or itself
one of the six enumerated values, the `status` returned by `checkAppPass`
and `activateAppPass` is one of the six enumerated values (a non-empty
out-of-enumeration body status is passed through verbatim instead). -/
theorem status_defined_and_enumerated (env : Env)
    (H : ∀ i c b, env.fetches i = FetchOutcome.response c (Except.ok b) →
      b.status = none ∨ b.status = some "" ∨
        ∃ s, b.status = some s ∧ statusInEnum s = true) :
    (∀ r tr, checkAppPass env = (Except.ok r, tr) → statusInEnum r.status = true) ∧
    (∀ r tr, activateAppPass env = (Except.ok r, tr) → statusInEnum r.status = true) := by
  have key : ∀ r : AppPassResponse,
      (r = noPermResponse ∨ r = (runAttempts env 3 1 Trace.empty).1) →
      statusInEnum r.status = true := by
    intro r hr
    rcases response_shape env r hr with h | h | ⟨i, c, b, hf, hc, h⟩
    · subst h; rfl
    · subst h; rfl
    · subst h
      rcases H i c b hf with h0 | h0 | ⟨s, hs, henum⟩
      · simp [bodyToResponse, orDefault, h0]; rfl
      · simp [bodyToResponse, orDefault, h0]; rfl
      · by_cases hse : s = ""
        · subst hse; simp [bodyToResponse, orDefault, hs]; rfl
        · simp [bodyToResponse, orDefault, hs, hse]; exact henum
  exact ⟨fun r tr h => key r (checkAppPass_ok_cases env r tr h),
         fun r tr h => key r (activateAppPass_ok_cases env r tr h)⟩

/-- Witness for C2 (amended) at a concrete environment. -/
theorem status_defined_and_enumerated_witness :
    statusInEnum connFailResponse.status = true :=
  (status_defined_and_enumerated envAllThrow
    (fun _ _ _ hf => FetchOutcome.noConfusion hf)).1
    connFailResponse { fetches := 3, waits := 2 } (by rfl)

/-- Counterexample to C3 as stated: a 200 body with status `no_apppass`
and populated `email`/`appPassToken` fields is passed through verbatim, so
a non-`ok` result carries both fields. -/
theorem fields_leak_counterexample :
    (checkAppPass envLeak).1 =
      Except.ok { status := "no_apppass", email := some "x@y.z",
                  appPassToken := some "T" } ∧
    ("no_apppass" : String) ≠ "ok" :=
  ⟨rfl, by decide⟩

/-- Claim C3 (amended): `email` and `appPassToken` are populated only in a
result mapped from a terminal parsed 2xx body, where both pass through
that body verbatim regardless of the body's status value; every internally
generated result (`no_perm`, `err`) has both fields absent. -/
theorem fields_only_from_terminal_body (env : Env) :
    (∀ r tr, checkAppPass env = (Except.ok r, tr) →
      (r.email = none ∧ r.appPassToken = none) ∨
      ∃ i c b, env.fetches i = FetchOutcome.response c (Except.ok b) ∧
        successRange c = true ∧ r.email = b.email ∧ r.appPassToken = b.appPassToken) ∧
    (∀ r tr, activateAppPass env = (Except.ok r, tr) →
      (r.email = none ∧ r.appPassToken = none) ∨
      ∃ i c b, env.fetches i = FetchOutcome.response c (Except.ok b) ∧
        successRange c = true ∧ r.email = b.email ∧ r.appPassToken = b.appPassToken) := by
  have key : ∀ r : AppPassResponse,
      (r = noPermResponse ∨ r = (runAttempts env 3 1 Trace.empty).1) →
      (r.email = none ∧ r.appPassToken = none) ∨
      ∃ i c b, env.fetches i = FetchOutcome.response c (Except.ok b) ∧
        successRange c = true ∧ r.email = b.email ∧ r.appPassToken = b.appPassToken := by
    intro r hr
    rcases response_shape env r hr with h | h | ⟨i, c, b, hf, hc, h⟩
    · subst h; exact Or.inl ⟨rfl, rfl⟩
    · subst h; exact Or.inl ⟨rfl, rfl⟩
    · subst h; exact Or.inr ⟨i, c, b, hf, hc, rfl, rfl⟩
  exact ⟨fun r tr h => key r (checkAppPass_ok_cases env r tr h),
         fun r tr h => key r (activateAppPass_ok_cases env r tr h)⟩

/-- Witness for C3 (amended) at a concrete environment. -/
theorem fields_only_from_terminal_body_witness :
    ((connFailResponse.email = none ∧ connFailResponse.appPassToken = none) ∨
      ∃ i c b, envAllThrow.fetches i = FetchOutcome.response c (Except.ok b) ∧
        successRange c = true ∧ connFailResponse.email = b.email ∧
        connFailResponse.appPassToken = b.appPassToken) :=
  (fields_only_from_terminal_body envAllThrow).1 connFailResponse
    { fetches := 3, waits := 2 } (by rfl)

/-- Counterexample to C5 as stated: on a 200 body whose status field is
present but empty, the result's status is `'unknown_error'`, not the
body's status field. -/
theorem empty_status_counterexample :
    envEmptyStatus.fetches 1 = FetchOutcome.response 200 (Except.ok { status := some "" }) ∧
    (checkStatus envEmptyStatus).1 = Except.ok { status := "unknown_error" } ∧
    ("unknown_error" : String) ≠ "" :=
  ⟨rfl, rfl, by decide⟩

/-- Counterexample to C6 as stated: a thrown permission query escapes
`checkAppPass`, and a thrown `tabs.create` escapes `activateAppPass`. -/
theorem exception_escape_counterexample :
    (checkAppPass envPermThrow).1 = Except.error () ∧
    (activateAppPass envTabThrow).1 = Except.error () :=
  ⟨rfl, rfl⟩

/-- Claim C6 (amended): transport and body-parse failures never escape —
whenever the host permission calls and tab creation themselves succeed,
both public operations return a structurally valid result for every fetch
and parse behaviour; exceptions thrown by the permission queries or by tab
creation, however, propagate to the caller. -/
theorem fetch_failures_absorbed (env : Env) (b g : Bool)
    (hc : env.permContains = Except.ok b) (hr : env.permRequest = Except.ok g)
    (ht : env.tabCreate = Except.ok ()) :
    (∃ r tr, checkAppPass env = (Except.ok r, tr)) ∧
    (∃ r tr, activateAppPass env = (Except.ok r, tr)) := by
  constructor
  · cases b with
    | false => exact ⟨noPermResponse, Trace.empty, by simp [checkAppPass, hc]⟩
    | true =>
      exact ⟨(runAttempts env 3 1 Trace.empty).1, (runAttempts env 3 1 Trace.empty).2,
        by simp [checkAppPass, hc, checkStatus_granted env hc]⟩
  · cases g with
    | false => exact ⟨noPermResponse, Trace.empty, by simp [activateAppPass, hr]⟩
    | true =>
      exact ⟨_, _, activateAppPass_granted_tabok env b hr hc ht⟩

/-- Witness for C6 (amended) at a concrete environment. -/
theorem fetch_failures_absorbed_witness :
    (∃ r tr, checkAppPass envAllThrow = (Except.ok r, tr)) ∧
    (∃ r tr, activateAppPass envAllThrow = (Except.ok r, tr)) :=
  fetch_failures_absorbed envAllThrow true true rfl rfl rfl

end AppPassSDK
